import Mathlib

/-!
Verification development for `bw_map.py`: a script that renders a
street-only map image from OpenStreetMap data.  The Python source is
shallowly embedded below: pure helpers become Lean functions, the
stateful fetch step of `render_detailed_map` becomes explicit state
passing over the mutable `ox.settings.max_query_area_size` value, and
filesystem / image-library effects are modelled by small explicit state
types.  Exceptions raised by external calls are modelled with `Except`,
driven by an oracle saying which external fetches succeed.
-/

/-- Model of the characters removed by Python `str.strip()` with no
argument (the ASCII whitespace characters). -/
def isPySpace (c : Char) : Bool :=
  c = ' ' || c = '\t' || c = '\n' || c = '\r' || c = '\x0b' || c = '\x0c'

/-- Python `str.strip()` on a list of characters: drop leading and
trailing whitespace. -/
def pyStripList (l : List Char) : List Char :=
  ((l.dropWhile isPySpace).reverse.dropWhile isPySpace).reverse

/-- Python `str.strip()` on a `String`. -/
def pyStrip (s : String) : String :=
  ⟨pyStripList s.data⟩

/-- The hexadecimal digit characters accepted by `_normalize_hex_color`
(the string literal `"0123456789abcdefABCDEF"` in the source). -/
def hexChars : List Char :=
  "0123456789abcdefABCDEF".data

/-- Core of `_normalize_hex_color` (bw_map.py lines 38-50) on a list of
characters: strip the input, require a leading `#`, a total length of 4
or 7, and only hexadecimal digits after the `#`; return the stripped
value, else `none` (the Python `None` sentinel). -/
def normalizeHexList (l : List Char) : Option (List Char) :=
  let value := pyStripList l
  if !(value.head? == some '#') then
    none
  else if !(value.length == 4 || value.length == 7) then
    none
  else if !((value.drop 1).all (fun ch => hexChars.contains ch)) then
    none
  else
    some value

/-- `_normalize_hex_color` on a `String` argument (the `isinstance`
guard of line 40 is modelled separately on `PyValue`). -/
def _normalize_hex_color (color : String) : Option String :=
  (normalizeHexList color.data).map (fun l => ⟨l⟩)

/-- Model of an arbitrary Python runtime value, as far as the script
can observe it: the `isinstance(color, str)` guard only distinguishes
strings from everything else. -/
inductive PyValue where
  | str (s : String)
  | pyNone
  | int (n : Int)
  | bool (b : Bool)
  | list (items : List PyValue)

/-- `_normalize_hex_color` over an arbitrary Python value: line 40-41
of the source (`if not isinstance(color, str): return None`) makes the
function total over non-string arguments. -/
def _normalize_hex_color_any : PyValue → Option String
  | PyValue.str s => _normalize_hex_color s
  | _ => none

/-- Spec-side validity predicate for a (already stripped) hex color
string, following the spec words: starts with `#`, total length exactly
4 or 7, all characters after `#` hexadecimal digits. -/
def validHexB (l : List Char) : Bool :=
  (l.head? == some '#') && (l.length == 4 || l.length == 7)
    && (l.drop 1).all (fun ch => hexChars.contains ch)

/-- `LARGE_AREA_THRESHOLD_SQM = 2_000_000_000` (bw_map.py line 35).
Areas are modelled as exact rationals. -/
def LARGE_AREA_THRESHOLD_SQM : ℚ := 2000000000

/-- The curated major-roads Overpass filter built on lines 98-102. -/
def major_roads_filter : String :=
  "[\"highway\"~\"motorway|trunk|primary|secondary|tertiary|motorway_link|trunk_link|primary_link|secondary_link|tertiary_link|residential|unclassified|living_street\"]"

/-- The way a single `ox.graph_from_place` call is parameterised in the
fetch step: either with a `custom_filter` string or with a
`network_type` string. -/
inductive FetchSpec where
  | custom (filter : String)
  | network (name : String)
deriving DecidableEq, Repr

/-- Model of one `ox.graph_from_place` call: an oracle `ok` says which
parameterisations succeed; a failing call raises (modelled by
`Except.error`).  The returned graph is identified by the spec that
fetched it. -/
def graph_from_place (ok : FetchSpec → Bool) (spec : FetchSpec) : Except Unit FetchSpec :=
  if ok spec then Except.ok spec else Except.error ()

/-- The street-network fetch step of `render_detailed_map`
(bw_map.py lines 96-122), with the mutable
`ox.settings.max_query_area_size` passed as explicit state `s0`
(`none` models the attribute being absent, per the `getattr` default).
The result carries the final setting value and the list of
`graph_from_place` attempts made, in order; `Except.error` carries the
setting value left behind when the uncaught exception propagates. -/
def fetchStep (area : ℚ) (ok : FetchSpec → Bool) (s0 : Option ℚ) :
    Except (Option ℚ × List FetchSpec) (Option ℚ × List FetchSpec) :=
  let original := s0
  let afterFetch : Except (Option ℚ × List FetchSpec) (Option ℚ × List FetchSpec) :=
    if LARGE_AREA_THRESHOLD_SQM ≤ area then
      let s1 := match original with
        | some q => some (min area (q * 10))
        | none => s0
      match graph_from_place ok (FetchSpec.custom major_roads_filter) with
      | Except.ok _ => Except.ok (s1, [FetchSpec.custom major_roads_filter])
      | Except.error _ =>
        match graph_from_place ok (FetchSpec.network "drive") with
        | Except.ok _ =>
            Except.ok (s1, [FetchSpec.custom major_roads_filter, FetchSpec.network "drive"])
        | Except.error _ =>
            Except.error (s1, [FetchSpec.custom major_roads_filter, FetchSpec.network "drive"])
    else
      match graph_from_place ok (FetchSpec.network "drive_service") with
      | Except.ok _ => Except.ok (s0, [FetchSpec.network "drive_service"])
      | Except.error _ =>
        match graph_from_place ok (FetchSpec.network "drive") with
        | Except.ok _ =>
            Except.ok (s0, [FetchSpec.network "drive_service", FetchSpec.network "drive"])
        | Except.error _ =>
            Except.error (s0, [FetchSpec.network "drive_service", FetchSpec.network "drive"])
  match afterFetch with
  | Except.ok (s, tr) =>
      Except.ok ((match original with | some _ => original | none => s), tr)
  | Except.error e => Except.error e

/-- The ordered list of `graph_from_place` attempts the fetch step
makes, whether or not it ultimately raises. -/
def fetchAttempts (area : ℚ) (ok : FetchSpec → Bool) (s0 : Option ℚ) : List FetchSpec :=
  match fetchStep area ok s0 with
  | Except.ok (_, tr) => tr
  | Except.error (_, tr) => tr

/-- A straight-alpha RGBA pixel, channel values in 0..255. -/
structure RGBA where
  r : Nat
  g : Nat
  b : Nat
  a : Nat
deriving DecidableEq, Repr

/-- Model of a PIL image: whether an alpha band is present
(`"A" in img.getbands()`), and the pixel data. -/
structure PILImage where
  hasAlpha : Bool
  pixels : List RGBA
deriving DecidableEq, Repr

/-- Model of `PIL.Image.alpha_composite` on one pixel: standard
straight-alpha over-compositing of `fg` over `bg`, with channel values
scaled to 0..255 and rounded down. -/
def pixelOver (bg fg : RGBA) : RGBA :=
  let na := fg.a * 255 + bg.a * (255 - fg.a)
  if na = 0 then ⟨0, 0, 0, 0⟩
  else
    ⟨(fg.r * fg.a * 255 + bg.r * bg.a * (255 - fg.a)) / na,
     (fg.g * fg.a * 255 + bg.g * bg.a * (255 - fg.a)) / na,
     (fg.b * fg.a * 255 + bg.b * bg.a * (255 - fg.a)) / na,
     na / 255⟩

/-- Python `int(s, 16)` on a string of hexadecimal digits, as a fold
over the digit values (digits outside the hex alphabet never reach it
in this program). -/
def pyInt16 (l : List Char) : Nat :=
  l.foldl (fun acc c =>
    acc * 16 +
      (if '0' ≤ c && c ≤ '9' then c.toNat - '0'.toNat
       else if 'a' ≤ c && c ≤ 'f' then c.toNat - 'a'.toNat + 10
       else if 'A' ≤ c && c ≤ 'F' then c.toNat - 'A'.toNat + 10
       else 0)) 0

/-- The background-color parse of `flatten_png_background`
(bw_map.py lines 238-249): default white, a normalized 3-digit hex has
each digit doubled (`int(ch * 2, 16)`), a normalized 6-digit hex is
read two digits per channel. -/
def flattenBackgroundRGB (bgcolor : String) : Nat × Nat × Nat :=
  let rgb : Nat × Nat × Nat := (255, 255, 255)
  match _normalize_hex_color bgcolor with
  | some normalized =>
    let hex_color := normalized.data.drop 1
    match hex_color with
    | [c1, c2, c3] => (pyInt16 [c1, c1], pyInt16 [c2, c2], pyInt16 [c3, c3])
    | [c1, c2, c3, c4, c5, c6] =>
        (pyInt16 [c1, c2], pyInt16 [c3, c4], pyInt16 [c5, c6])
    | _ => rgb
  | none => rgb

/-- `flatten_png_background` (bw_map.py lines 230-258) on the image
state: parse the background color, do nothing (`none`, no write) when
the image has no alpha band, otherwise composite every pixel over an
opaque background of that color, convert to RGB (alpha dropped, stored
as 255) and write the result (`some`). -/
def flatten_png_background (img : PILImage) (bgcolor : String) : Option PILImage :=
  let rgb := flattenBackgroundRGB bgcolor
  if img.hasAlpha = false then
    none
  else
    let bgPix : RGBA := ⟨rgb.1, rgb.2.1, rgb.2.2, 255⟩
    let composited := img.pixels.map (fun p => pixelOver bgPix p)
    some { hasAlpha := false,
           pixels := composited.map (fun q => ⟨q.r, q.g, q.b, 255⟩) }

/-- A direct child of the cache folder as `clean_cache_folder` sees it:
a file, a symlink, or a (possibly non-empty) subdirectory, each tagged
with whether its removal fails (an `unlink` error caught by the
`except` clause, or an `shutil.rmtree` failure silenced by
`ignore_errors=True`). -/
inductive FSChild where
  | file (removalFails : Bool)
  | symlink (removalFails : Bool)
  | dir (contents : List FSChild) (removalFails : Bool)

/-- Whether removing this child fails (it then stays in the folder). -/
def FSChild.removeFails : FSChild → Bool
  | FSChild.file f => f
  | FSChild.symlink f => f
  | FSChild.dir _ f => f

/-- The state of the path handed to `clean_cache_folder`: a state on
which the `folder.exists()` / `folder.is_dir()` stat itself raises
(e.g. `PermissionError` from an unsearchable parent directory),
a missing path, an existing non-directory, or a directory with its
direct children, tagged with whether enumerating it
(`folder.iterdir()`) raises (e.g. `PermissionError` on an unreadable
directory). -/
inductive PathState where
  | statError
  | absent
  | nonDirectory
  | directory (listingFails : Bool) (children : List FSChild)

/-- `clean_cache_folder` (bw_map.py lines 215-227): a missing or
non-directory path is left untouched; for a readable directory every
direct child is removed in turn, each removal failure caught by the
per-child `try`/`except` and ignored so the failing child merely
survives, and the directory itself remains.  The stat on line 217 and
the `iterdir()` enumeration on line 219 are outside that
`try`/`except`, so an error they raise propagates
(`Except.error`, carrying the state left behind — no child was
removed). -/
def clean_cache_folder : PathState → Except PathState PathState
  | PathState.statError => Except.error PathState.statError
  | PathState.absent => Except.ok PathState.absent
  | PathState.nonDirectory => Except.ok PathState.nonDirectory
  | PathState.directory listingFails cs =>
      if listingFails then Except.error (PathState.directory true cs)
      else Except.ok (PathState.directory false (cs.filter (fun c => c.removeFails)))

/-- The cache-cleanup decision of `render_detailed_map`
(bw_map.py line 187): cleanup runs unless the stripped value of the
`PYMAP_KEEP_CACHE` environment variable (empty default when unset)
equals `"1"`. -/
def cacheCleanupRuns (keepCache : Option String) : Bool :=
  !(pyStrip (keepCache.getD "") == "1")

/-- Outcome of `main`: the process exit status, and whether
`render_detailed_map` (the only code doing geocoding or network calls)
was invoked at all. -/
structure MainResult where
  exitCode : Nat
  renderAttempted : Bool
deriving DecidableEq, Repr

/-- Place-name resolution of `main` (bw_map.py lines 196-200): the
stripped join of the CLI arguments, or, when that is empty, the
stripped interactive input. -/
def resolvedPlace (args : List String) (interactive : String) : String :=
  let place := pyStrip (String.intercalate " " args)
  if place = "" then pyStrip interactive else place

/-- `main` (bw_map.py lines 195-212; named `mainEntry` here since Lean
reserves `main` for IO entry points): exit 1 without rendering when no
place name was resolved, otherwise render and exit 0 on success or 2
when `render_detailed_map` raises (`renderOk` is the oracle for that
call). -/
def mainEntry (args : List String) (interactive : String) (renderOk : Bool) : MainResult :=
  let place := resolvedPlace args interactive
  if place = "" then { exitCode := 1, renderAttempted := false }
  else if renderOk then { exitCode := 0, renderAttempted := true }
  else { exitCode := 2, renderAttempted := true }

lemma dropWhile_eq_self_of_none (p : Char → Bool) (l : List Char)
    (h : ∀ c ∈ l, p c = false) : l.dropWhile p = l := by
  cases l with
  | nil => rfl
  | cons c cs =>
    simp [List.dropWhile, h c (List.mem_cons_self c cs)]

lemma pyStripList_eq_self (l : List Char)
    (h : ∀ c ∈ l, isPySpace c = false) : pyStripList l = l := by
  unfold pyStripList
  rw [dropWhile_eq_self_of_none _ _ h]
  rw [dropWhile_eq_self_of_none _ _ (fun c hc => h c (List.mem_reverse.mp hc))]
  exact List.reverse_reverse l

lemma normalizeHexList_eq (l : List Char) :
    normalizeHexList l =
      if validHexB (pyStripList l) then some (pyStripList l) else none := by
  unfold normalizeHexList validHexB
  cases h1 : (pyStripList l).head? == some '#' <;>
    cases h2 : ((pyStripList l).length == 4 || (pyStripList l).length == 7) <;>
      cases h3 : ((pyStripList l).drop 1).all (fun ch => hexChars.contains ch) <;>
        simp only [h1, h2, h3] <;> rfl

/-- C3 counterexample: on the input `" #abc"`, which does not start
with `#`, the normalizer still returns a non-sentinel value (the
stripped string), so acceptance is not characterized by the raw input
starting with `#`. -/
theorem normalize_accepts_leading_space :
    _normalize_hex_color " #abc" = some "#abc" ∧
      " #abc".data.head? ≠ some '#' ∧ (" #abc" : String) ≠ "#abc" := by
  refine ⟨by decide, by decide, by decide⟩

/-- C3 (amended): the normalizer first strips leading and trailing
whitespace; it returns a non-sentinel value exactly when the stripped
input starts with `#`, has length 4 or 7, and is hexadecimal after the
`#`, and the value returned is then the stripped input itself (case
preserved); otherwise it returns the `none` sentinel.  Totality over
all strings (no exception) holds by construction. -/
theorem normalize_hex_characterization (s : String) :
    _normalize_hex_color s =
      if validHexB (pyStripList s.data) then some (pyStrip s) else none := by
  unfold _normalize_hex_color pyStrip
  rw [normalizeHexList_eq]
  cases h : validHexB (pyStripList s.data) <;> simp [h]

/-- C7: an image with no alpha band is left untouched: the flattener
performs no write at all. -/
theorem flatten_no_alpha_noop (img : PILImage) (bgcolor : String)
    (h : img.hasAlpha = false) :
    flatten_png_background img bgcolor = none := by
  simp [flatten_png_background, h]

/-- C7 witness. -/
theorem flatten_no_alpha_noop_witness :
    flatten_png_background ⟨false, [⟨1, 2, 3, 4⟩]⟩ "#abc" = none :=
  flatten_no_alpha_noop ⟨false, [⟨1, 2, 3, 4⟩]⟩ "#abc" rfl

/-- C8 counterexample: with `PYMAP_KEEP_CACHE=" 1"` — a value distinct
from the literal `"1"` — cleanup is nevertheless skipped, because the
code strips the value before comparing. -/
theorem cache_skip_on_padded_value :
    cacheCleanupRuns (some " 1") = false ∧ (" 1" : String) ≠ "1" := by
  refine ⟨by decide, by decide⟩

/-- C8 (amended): cleanup is skipped exactly when the stripped value of
the keep-cache variable equals `"1"`; any other stripped value, or the
variable being unset, triggers cleanup. -/
theorem cache_cleanup_iff_stripped (env : Option String) :
    (pyStrip (env.getD "") = "1" → cacheCleanupRuns env = false) ∧
      (pyStrip (env.getD "") ≠ "1" → cacheCleanupRuns env = true) ∧
      cacheCleanupRuns none = true := by
  refine ⟨fun h => ?_, fun h => ?_, by decide⟩
  · simp [cacheCleanupRuns, h]
  · simp [cacheCleanupRuns, h]

/-- C8 witness. -/
theorem cache_cleanup_iff_stripped_witness :
    cacheCleanupRuns (some "1") = false ∧ cacheCleanupRuns (some "0") = true :=
  ⟨(cache_cleanup_iff_stripped (some "1")).1 (by decide),
   (cache_cleanup_iff_stripped (some "0")).2.1 (by decide)⟩

/-- C9: `main` exits 0 when the render succeeds, exits 1 without ever
attempting a render (hence no geocoding or network call) when no place
name is resolvable from the arguments or the prompt, and exits 2 when
the render raises; the two nonzero statuses are distinct. -/
theorem main_exit_codes (args : List String) (interactive : String) (renderOk : Bool) :
    (resolvedPlace args interactive = "" →
        mainEntry args interactive renderOk = { exitCode := 1, renderAttempted := false }) ∧
      (resolvedPlace args interactive ≠ "" →
        mainEntry args interactive true = { exitCode := 0, renderAttempted := true } ∧
          mainEntry args interactive false = { exitCode := 2, renderAttempted := true }) ∧
      ((1 : Nat) ≠ 0 ∧ (2 : Nat) ≠ 0 ∧ (1 : Nat) ≠ 2) := by
  refine ⟨fun h => ?_, fun h => ⟨?_, ?_⟩, by decide, by decide, by decide⟩
  · simp [mainEntry, h]
  · simp [mainEntry, h]
  · simp [mainEntry, h]

/-- C9 witness. -/
theorem main_exit_codes_witness :
    mainEntry [] "" true = { exitCode := 1, renderAttempted := false } ∧
      mainEntry ["x"] "" true = { exitCode := 0, renderAttempted := true } ∧
      mainEntry ["x"] "" false = { exitCode := 2, renderAttempted := true } := by
  refine ⟨(main_exit_codes [] "" true).1 (by decide),
    ((main_exit_codes ["x"] "" true).2.1 (by decide)).1,
    ((main_exit_codes ["x"] "" false).2.1 (by decide)).2⟩

/-- C10: the normalizer is total over arbitrary Python values: every
non-string argument yields the `None` sentinel rather than an error. -/
theorem normalize_total_on_non_strings (v : PyValue)
    (h : ∀ s, v ≠ PyValue.str s) :
    _normalize_hex_color_any v = none := by
  cases v with
  | str s => exact absurd rfl (h s)
  | pyNone => rfl
  | int n => rfl
  | bool b => rfl
  | list items => rfl

/-- C10 witness. -/
theorem normalize_total_on_non_strings_witness :
    _normalize_hex_color_any (PyValue.int 3) = none :=
  normalize_total_on_non_strings (PyValue.int 3)
    (fun s h => PyValue.noConfusion h)

/-- C1: the detail tier depends only on the projected area: at or above
the threshold the curated major-roads custom filter is tried first and,
on failure, retried exactly once with the broader `"drive"` network
type; strictly below the threshold the `"drive_service"` tier is tried
first with the same single `"drive"` retry on failure. -/
theorem fetch_tier_by_area (area : ℚ) (ok : FetchSpec → Bool) (s0 : Option ℚ) :
    (LARGE_AREA_THRESHOLD_SQM ≤ area →
      fetchAttempts area ok s0 =
        if ok (FetchSpec.custom major_roads_filter) then [FetchSpec.custom major_roads_filter]
        else [FetchSpec.custom major_roads_filter, FetchSpec.network "drive"]) ∧
    (area < LARGE_AREA_THRESHOLD_SQM →
      fetchAttempts area ok s0 =
        if ok (FetchSpec.network "drive_service") then [FetchSpec.network "drive_service"]
        else [FetchSpec.network "drive_service", FetchSpec.network "drive"]) := by
  constructor
  · intro h
    cases hc : ok (FetchSpec.custom major_roads_filter) <;>
      cases hd : ok (FetchSpec.network "drive") <;>
        cases s0 <;>
          simp [fetchAttempts, fetchStep, graph_from_place, h, hc, hd]
  · intro h
    cases hs1 : ok (FetchSpec.network "drive_service") <;>
      cases hd : ok (FetchSpec.network "drive") <;>
        cases s0 <;>
          simp [fetchAttempts, fetchStep, graph_from_place, not_le.mpr h, hs1, hd]

/-- C1 witness: at the threshold with every fetch failing, the curated
filter is tried then `"drive"`; below it, `"drive_service"` then
`"drive"`. -/
theorem fetch_tier_by_area_witness :
    fetchAttempts 2000000000 (fun _ => false) (some 1) =
        [FetchSpec.custom major_roads_filter, FetchSpec.network "drive"] ∧
      fetchAttempts 5 (fun _ => false) (some 1) =
        [FetchSpec.network "drive_service", FetchSpec.network "drive"] := by
  constructor
  · have h := (fetch_tier_by_area 2000000000 (fun _ => false) (some 1)).1
      (by norm_num [LARGE_AREA_THRESHOLD_SQM])
    simpa using h
  · have h := (fetch_tier_by_area 5 (fun _ => false) (some 1)).2
      (by norm_num [LARGE_AREA_THRESHOLD_SQM])
    simpa using h

/-- C2 counterexample: with the threshold area, a prior limit of 1 and
both fetches failing, the fetch step propagates the exception with the
limit still raised to `min area (10 * 1) = 10`, not restored to 1 — so
the limit is not restored on the exit path where the fallback fetch
itself raises. -/
theorem max_query_area_not_restored_on_fallback_failure :
    fetchStep 2000000000 (fun _ => false) (some 1) =
      Except.error (some 10, [FetchSpec.custom major_roads_filter, FetchSpec.network "drive"]) ∧
    some (10 : ℚ) ≠ some (1 : ℚ) := by
  constructor
  · simp [fetchStep, graph_from_place, LARGE_AREA_THRESHOLD_SQM]
    norm_num
  · simp

/-- C2 (amended): the limit is raised to the minimum of the area and
ten times the prior limit, and the prior limit is restored on every
exit path on which the fetch step returns normally — including the
path through the fallback fetch — but not on the path where the
fallback fetch itself raises. -/
theorem max_query_area_restored_on_success (area : ℚ) (ok : FetchSpec → Bool)
    (s0 s : Option ℚ) (tr : List FetchSpec)
    (h : fetchStep area ok s0 = Except.ok (s, tr)) : s = s0 := by
  rcases le_or_lt LARGE_AREA_THRESHOLD_SQM area with hA | hA
  · cases hc : ok (FetchSpec.custom major_roads_filter) <;>
      cases hd : ok (FetchSpec.network "drive") <;>
        cases s0 <;>
          simp_all [fetchStep, graph_from_place]
  · have hA2 : ¬ (LARGE_AREA_THRESHOLD_SQM ≤ area) := not_le.mpr hA
    simp only [fetchStep, graph_from_place] at h
    rw [if_neg hA2] at h
    cases hs1 : ok (FetchSpec.network "drive_service") <;>
      cases hd : ok (FetchSpec.network "drive") <;>
        cases s0 <;>
          simp_all

/-- C2 witness: a large-area run whose curated fetch fails but whose
fallback succeeds ends with the limit restored to its prior value. -/
theorem max_query_area_restored_on_success_witness :
    (some (1 : ℚ)) = (some (1 : ℚ)) :=
  max_query_area_restored_on_success 2000000000
    (fun sp => sp == FetchSpec.network "drive") (some 1) (some 1)
    [FetchSpec.custom major_roads_filter, FetchSpec.network "drive"]
    (by simp [fetchStep, graph_from_place, LARGE_AREA_THRESHOLD_SQM])

lemma hexChars_not_space : ∀ c ∈ hexChars, isPySpace c = false := by decide

lemma pixelOver_transparent (r g b : Nat) (p : RGBA) (hp : p.a = 0) :
    pixelOver ⟨r, g, b, 255⟩ p = ⟨r, g, b, 255⟩ := by
  simp [pixelOver, hp]
  omega

/-- C4: flattening an everywhere-fully-transparent image with a valid
hex background color writes an image with no alpha band whose every
pixel is the parsed background RGB. -/
theorem flatten_fully_transparent (img : PILImage) (bgcolor : String)
    (hA : img.hasAlpha = true) (htr : ∀ p ∈ img.pixels, p.a = 0)
    (hv : _normalize_hex_color bgcolor ≠ none) :
    flatten_png_background img bgcolor =
      some { hasAlpha := false,
             pixels := img.pixels.map (fun _ =>
               ⟨(flattenBackgroundRGB bgcolor).1, (flattenBackgroundRGB bgcolor).2.1,
                (flattenBackgroundRGB bgcolor).2.2, 255⟩) } := by
  simp only [flatten_png_background, hA]
  simp only [Bool.true_eq_false, if_false, List.map_map, Option.some.injEq]
  refine congrArg _ ?_
  rw [List.map_congr_left]
  intro p hp
  rw [Function.comp_apply, pixelOver_transparent _ _ _ _ (htr p hp)]

/-- C4 witness. -/
theorem flatten_fully_transparent_witness :
    flatten_png_background ⟨true, [⟨9, 9, 9, 0⟩, ⟨1, 2, 3, 0⟩]⟩ "#abc" =
      some ⟨false, [⟨170, 187, 204, 255⟩, ⟨170, 187, 204, 255⟩]⟩ := by
  rw [flatten_fully_transparent ⟨true, [⟨9, 9, 9, 0⟩, ⟨1, 2, 3, 0⟩]⟩ "#abc"
    rfl (by decide) (by decide)]
  decide

/-- C5 counterexample: the cleaner does not never-raise over every
filesystem state: on an existing directory whose enumeration raises
(an unreadable directory — `iterdir()` on line 219 is outside the
per-child `try`/`except`), the exception escapes the function's
boundary with no child removed. -/
theorem clean_cache_raises_on_unreadable_dir :
    clean_cache_folder (PathState.directory true [FSChild.file false]) =
      Except.error (PathState.directory true [FSChild.file false]) := rfl

/-- C5 (amended): a missing or non-directory path is a no-op; on a
readable directory every per-child removal failure is caught and
ignored so the remaining children are still processed, and the
directory itself is never removed — after a successful pass over a
directory holding one file and one non-empty subdirectory the
directory exists and is empty; but an error raised by the
existence/type stat or by the directory enumeration itself is not
caught and propagates past the cleaner's boundary. -/
theorem clean_cache_behavior :
    (clean_cache_folder PathState.absent = Except.ok PathState.absent) ∧
      (clean_cache_folder PathState.nonDirectory = Except.ok PathState.nonDirectory) ∧
      (∀ cs : List FSChild, ∃ cs2,
        clean_cache_folder (PathState.directory false cs) =
          Except.ok (PathState.directory false cs2)) ∧
      (∀ (pre : List FSChild) (bad : FSChild) (post : List FSChild),
        (∀ c ∈ pre, c.removeFails = false) → (∀ c ∈ post, c.removeFails = false) →
          clean_cache_folder (PathState.directory false (pre ++ bad :: post)) =
            Except.ok (PathState.directory false (if bad.removeFails then [bad] else []))) ∧
      (clean_cache_folder (PathState.directory false
          [FSChild.file false, FSChild.dir [FSChild.file false] false]) =
        Except.ok (PathState.directory false [])) ∧
      (∀ cs : List FSChild,
        clean_cache_folder (PathState.directory true cs) =
          Except.error (PathState.directory true cs)) ∧
      (clean_cache_folder PathState.statError = Except.error PathState.statError) := by
  refine ⟨rfl, rfl, fun cs => ⟨_, rfl⟩, ?_, rfl, fun cs => rfl, rfl⟩
  intro pre bad post h1 h2
  simp only [clean_cache_folder, List.filter_append, List.filter_cons, if_false,
    Bool.false_eq_true]
  rw [List.filter_eq_nil_iff.mpr (by intro c hc; simp [h1 c hc]),
    List.filter_eq_nil_iff.mpr (by intro c hc; simp [h2 c hc])]
  cases hb : bad.removeFails <;> simp [hb]

/-- C5 witness: a symlink whose removal fails, between a file and an
empty subdirectory that are removed fine, survives alone. -/
theorem clean_cache_behavior_witness :
    clean_cache_folder (PathState.directory false
        ([FSChild.file false] ++ FSChild.symlink true :: [FSChild.dir [] false])) =
      Except.ok (PathState.directory false [FSChild.symlink true]) := by
  have h := clean_cache_behavior.2.2.2.1 [FSChild.file false] (FSChild.symlink true)
    [FSChild.dir [] false] (by decide) (by decide)
  simpa [FSChild.removeFails] using h

/-- C6: a valid 3-digit hex color and its nibble-doubled 6-digit
expansion parse to the identical RGB triple in the flattening
routine. -/
theorem hex3_hex6_same_rgb (c1 c2 c3 : Char)
    (h1 : c1 ∈ hexChars) (h2 : c2 ∈ hexChars) (h3 : c3 ∈ hexChars) :
    flattenBackgroundRGB ⟨['#', c1, c2, c3]⟩ =
      flattenBackgroundRGB ⟨['#', c1, c1, c2, c2, c3, c3]⟩ := by
  have hs1 : pyStripList ['#', c1, c2, c3] = ['#', c1, c2, c3] := by
    refine pyStripList_eq_self _ ?_
    intro c hc
    simp only [List.mem_cons, List.not_mem_nil, or_false] at hc
    rcases hc with rfl | rfl | rfl | rfl
    · decide
    · exact hexChars_not_space _ h1
    · exact hexChars_not_space _ h2
    · exact hexChars_not_space _ h3
  have hs2 : pyStripList ['#', c1, c1, c2, c2, c3, c3] = ['#', c1, c1, c2, c2, c3, c3] := by
    refine pyStripList_eq_self _ ?_
    intro c hc
    simp only [List.mem_cons, List.not_mem_nil, or_false] at hc
    rcases hc with rfl | rfl | rfl | rfl | rfl | rfl | rfl
    · decide
    all_goals first
      | exact hexChars_not_space _ h1
      | exact hexChars_not_space _ h2
      | exact hexChars_not_space _ h3
  have hv1 : validHexB ['#', c1, c2, c3] = true := by
    simp [validHexB, List.all_eq_true, h1, h2, h3]
  have hv2 : validHexB ['#', c1, c1, c2, c2, c3, c3] = true := by
    simp [validHexB, List.all_eq_true, h1, h2, h3]
  simp only [flattenBackgroundRGB, _normalize_hex_color, normalizeHexList_eq]
  rw [hs1, hs2, hv1, hv2]
  simp

/-- C6 witness. -/
theorem hex3_hex6_same_rgb_witness :
    flattenBackgroundRGB "#abc" = flattenBackgroundRGB "#aabbcc" :=
  hex3_hex6_same_rgb 'a' 'b' 'c' (by decide) (by decide) (by decide)
